import Mathlib

/-!
Verification of `src/frontend/src/application/application.tsx`.

The source file defines a single React component:

  function Application() {
    return (
      <BrowserRouter>
        <Setter>
          <Router />
        </Setter>
      </BrowserRouter>
    );
  }

  export default Application;

JSX desugars to element construction: each JSX form builds an element
value recording which component it refers to, the attribute props passed
to it, and its list of child elements; building an element does not call
the component.  We model the three referenced components as opaque kinds,
JSX construction as `createElement`, and `Application` as a nullary
function (domain `Unit`) whose body constructs and returns the element
tree written in the source.  Rendering the tree (which does call the
component implementations, and is where any of their effects or thrown
errors live) is modelled separately by `renderTree` and `renderTrace`.
-/

/-- The components referenced by `application.tsx`: the history provider
`BrowserRouter` imported from react-router-dom, and the local `Setter`
and `Router` components (external to the file, hence opaque here). -/
inductive ComponentKind : Type
  | browserRouter
  | setter
  | router
  deriving DecidableEq, Repr

/-- An element-tree node: the component kind it refers to, the attribute
props passed to it, and its child elements.  `application.tsx` writes no
JSX attributes anywhere, so every props list in `Application`'s output is
empty. -/
inductive Element : Type
  | node (kind : ComponentKind) (props : List (String × String)) (children : List Element)

/-- The component kind an element refers to. -/
def Element.kind : Element → ComponentKind
  | .node k _ _ => k

/-- The props passed to an element. -/
def Element.props : Element → List (String × String)
  | .node _ p _ => p

/-- The child elements of an element. -/
def Element.children : Element → List Element
  | .node _ _ cs => cs

/-- JSX element construction (`React.createElement`): records the target
component, the props and the children; it does not invoke the component. -/
def createElement (k : ComponentKind) (props : List (String × String))
    (children : List Element) : Element :=
  Element.node k props children

/-- The body of `Application`, embedded in state-passing form over an
ambient mutable store.  The TSX body consists of a single `return` of a
JSX literal — it contains no reads or writes of any outside state — so
its embedding constructs the element tree and passes the store through
untouched. -/
def ApplicationBody (store : List (String × String)) :
    Element × List (String × String) :=
  (createElement ComponentKind.browserRouter []
    [createElement ComponentKind.setter []
      [createElement ComponentKind.router [] []]],
   store)

/-- The `Application` component of `application.tsx`: a function declared
with an empty parameter list (modelled as domain `Unit`), returning the
element tree its body constructs. -/
def Application (_ : Unit) : Element :=
  (ApplicationBody []).1

mutual

/-- Number of elements of kind `k` occurring in a tree (the root
included). -/
def countKind (k : ComponentKind) : Element → Nat
  | .node k₀ _ cs => (if k₀ = k then 1 else 0) + countKindList k cs

/-- Number of elements of kind `k` occurring across a list of trees. -/
def countKindList (k : ComponentKind) : List Element → Nat
  | [] => 0
  | e :: es => countKind k e + countKindList k es

end

mutual

/-- All subtrees (in preorder) whose root element is of kind `k`. -/
def subtreesOfKind (k : ComponentKind) : Element → List Element
  | .node k₀ p cs =>
      (if k₀ = k then [Element.node k₀ p cs] else []) ++ subtreesOfKindList k cs

/-- All subtrees of kind `k` across a list of trees, in preorder. -/
def subtreesOfKindList (k : ComponentKind) : List Element → List Element
  | [] => []
  | e :: es => subtreesOfKind k e ++ subtreesOfKindList k es

end

mutual

/-- `true` when no `router` element occurs outside a subtree rooted at a
`setter` element, i.e. every `router` in the tree is a descendant of a
`setter`. -/
def routerOnlyUnderSetter : Element → Bool
  | .node k _ cs =>
      if k = ComponentKind.setter then true
      else if k = ComponentKind.router then false
      else routerOnlyUnderSetterList cs

/-- `routerOnlyUnderSetter` over a list of trees. -/
def routerOnlyUnderSetterList : List Element → Bool
  | [] => true
  | e :: es => routerOnlyUnderSetter e && routerOnlyUnderSetterList es

end

mutual

/-- The order in which components are entered when the tree is rendered:
each element's component is invoked before its children's, children in
list order. -/
def renderTrace : Element → List ComponentKind
  | .node k _ cs => k :: renderTraceList cs

/-- `renderTrace` over a list of sibling trees. -/
def renderTraceList : List Element → List ComponentKind
  | [] => []
  | e :: es => renderTrace e ++ renderTraceList es

end

mutual

/-- Rendering a tree against implementations of the components, each of
which may throw (`Except.error`): the element's own component runs first,
then its children in order.  No element in this model catches, transforms
or replaces an error — a thrown error aborts the render and is returned
as is, which is exactly the behaviour of a component tree containing no
error boundary. -/
def renderTree (impl : ComponentKind → Except String Unit) :
    Element → Except String Unit
  | .node k _ cs => (impl k).bind fun _ => renderTreeList impl cs

/-- `renderTree` over a list of sibling trees, left to right. -/
def renderTreeList (impl : ComponentKind → Except String Unit) :
    List Element → Except String Unit
  | [] => .ok ()
  | e :: es => (renderTree impl e).bind fun _ => renderTreeList impl es

end

/-- Component implementations where the history provider throws during
setup and the other components succeed. -/
def browserRouterThrows : ComponentKind → Except String Unit
  | .browserRouter => .error "history-provider-setup-failed"
  | _ => .ok ()

/-- Component implementations where `Setter` throws during initialization
and the other components succeed. -/
def setterThrows : ComponentKind → Except String Unit
  | .setter => .error "setter-initialization-failed"
  | _ => .ok ()

/-- Component implementations where `Router` throws while rendering and
the other components succeed. -/
def routerThrows : ComponentKind → Except String Unit
  | .router => .error "router-render-failed"
  | _ => .ok ()

/-- C1: every invocation of `Application` returns one element tree with
invariant nesting — the root is the `BrowserRouter` history provider, its
sole direct child is the `Setter` element, whose sole child is the
`Router` leaf — and the result never varies between invocations. -/
theorem c1_invariant_nesting :
    ∀ u v : Unit,
      (Application u).kind = ComponentKind.browserRouter ∧
      (Application u).children.map Element.kind = [ComponentKind.setter] ∧
      (subtreesOfKind ComponentKind.setter (Application u)).map
        (fun t => t.children.map Element.kind) = [[ComponentKind.router]] ∧
      (subtreesOfKind ComponentKind.router (Application u)).map
        Element.children = [[]] ∧
      Application u = Application v := by
  intro u v
  exact ⟨rfl, rfl, rfl, rfl, rfl⟩

/-- C2: `Application` adds no error handling — an error thrown during the
history provider's setup, during `Setter`'s initialization, or during
`Router`'s rendering propagates unmodified out of the render of
`Application`'s output. -/
theorem c2_errors_propagate_unmodified :
    ∀ (impl : ComponentKind → Except String Unit) (e : String),
      (impl ComponentKind.browserRouter = Except.error e →
        renderTree impl (Application ()) = Except.error e) ∧
      (impl ComponentKind.browserRouter = Except.ok () →
        impl ComponentKind.setter = Except.error e →
        renderTree impl (Application ()) = Except.error e) ∧
      (impl ComponentKind.browserRouter = Except.ok () →
        impl ComponentKind.setter = Except.ok () →
        impl ComponentKind.router = Except.error e →
        renderTree impl (Application ()) = Except.error e) := by
  intro impl e
  refine ⟨fun h₁ => ?_, fun h₁ h₂ => ?_, fun h₁ h₂ h₃ => ?_⟩
  · simp [Application, ApplicationBody, createElement, renderTree,
      renderTreeList, h₁, Except.bind]
  · simp [Application, ApplicationBody, createElement, renderTree,
      renderTreeList, h₁, h₂, Except.bind]
  · simp [Application, ApplicationBody, createElement, renderTree,
      renderTreeList, h₁, h₂, h₃, Except.bind]

/-- Witness for C2: with each of the three components in turn replaced by
an implementation that throws, the render of `Application`'s output
returns exactly that error. -/
theorem c2_errors_propagate_unmodified_witness :
    renderTree browserRouterThrows (Application ()) =
      Except.error "history-provider-setup-failed" ∧
    renderTree setterThrows (Application ()) =
      Except.error "setter-initialization-failed" ∧
    renderTree routerThrows (Application ()) =
      Except.error "router-render-failed" :=
  ⟨(c2_errors_propagate_unmodified browserRouterThrows
      "history-provider-setup-failed").1 rfl,
   (c2_errors_propagate_unmodified setterThrows
      "setter-initialization-failed").2.1 rfl rfl,
   (c2_errors_propagate_unmodified routerThrows
      "router-render-failed").2.2 rfl rfl rfl⟩

/-- C3: two independent invocations of `Application` produce structurally
identical trees, and the result of the body does not depend on any
ambient mutable store, so no state is shared between mounts at the
composition-root level. -/
theorem c3_deterministic_mounts :
    ∀ u v : Unit,
      Application u = Application v ∧
      ∀ s t : List (String × String), (ApplicationBody s).1 = (ApplicationBody t).1 := by
  intro u v
  exact ⟨rfl, fun s t => rfl⟩

/-- C4: the tree returned by every invocation of `Application` contains
exactly one `BrowserRouter` element, and that element is the root. -/
theorem c4_single_history_provider_outermost :
    ∀ u : Unit,
      countKind ComponentKind.browserRouter (Application u) = 1 ∧
      (Application u).kind = ComponentKind.browserRouter := by
  intro u
  exact ⟨rfl, rfl⟩

/-- C5: in `Application`'s output the `Router` element occurs exactly
once and only as a descendant of the `Setter` element, so in the render
order `Setter` is entered strictly before `Router`. -/
theorem c5_router_only_inside_setter :
    ∀ u : Unit,
      routerOnlyUnderSetter (Application u) = true ∧
      countKind ComponentKind.router (Application u) = 1 ∧
      renderTrace (Application u) =
        [ComponentKind.browserRouter, ComponentKind.setter, ComponentKind.router] := by
  intro u
  exact ⟨rfl, rfl, rfl⟩

/-- C6: `Application` is declared with an empty parameter list, so its
only argument is the trivial unit value and its output cannot depend on
anything a caller supplies. -/
theorem c6_parameterless_constant_output :
    ∀ u : Unit, Application u = Application () := by
  intro u
  rfl

/-- C7: the body of `Application` performs no side effects — run against
any ambient store it leaves the store exactly as it was and only
constructs and returns the composed element tree. -/
theorem c7_body_has_no_side_effects :
    ∀ store : List (String × String),
      (ApplicationBody store).2 = store ∧
      (ApplicationBody store).1 = Application () := by
  intro store
  exact ⟨rfl, rfl⟩

/-- C8: the `BrowserRouter` root element is given no props and receives
exactly one child, the `Setter` element (default configuration). -/
theorem c8_history_provider_default_config :
    ∀ u : Unit,
      (Application u).props = [] ∧
      (Application u).children =
        [createElement ComponentKind.setter []
          [createElement ComponentKind.router [] []]] := by
  intro u
  exact ⟨rfl, rfl⟩

/-- C9: the single `Router` element in `Application`'s output carries no
props and no children (a self-closing leaf). -/
theorem c9_router_leaf_no_props :
    ∀ u : Unit,
      subtreesOfKind ComponentKind.router (Application u) =
        [Element.node ComponentKind.router [] []] := by
  intro u
  rfl

/-- C10: `Application` always gives the `Setter` element exactly one
child, and that child is exactly the `Router` element. -/
theorem c10_setter_has_exactly_router_child :
    ∀ u : Unit,
      (subtreesOfKind ComponentKind.setter (Application u)).length = 1 ∧
      (subtreesOfKind ComponentKind.setter (Application u)).map Element.children =
        [[Element.node ComponentKind.router [] []]] := by
  intro u
  exact ⟨rfl, rfl⟩
